import Mathlib

/-!
Verification of the Agents repository (React/TypeScript frontend of the
Hybrid AI Research System) against its natural-language specification.

The embedding below translates, definition by definition:
  * the data model of src/frontend/src/types;
  * the zustand store src/frontend/src/store/useResearchStore.ts;
  * the polling helpers of src/frontend/src/hooks/useSettings.ts
    (useResearchSessions document);
  * filterSessionsByStatus of src/unnamed/part_004 (useResults);
  * ApiClient.request of src/frontend/src/lib/api.ts;
  * the error handler (parseApiError / classifyByStatusCode /
    getErrorMessage) whose implementation is inlined in
    src/frontend/src/lib/api.property.test.ts;
  * a model of the backend paper deduplication, which is not present in
    the repository sources (backend/ holds only a README), built from the
    specification text.

JavaScript numbers are modelled as Int where only integral values occur,
timestamps and ids as explicit parameters (Date.now at the call site),
and thrown exceptions as Except.
-/

namespace Agents

/-! ## Data model (src/frontend/src/types, file part_005) -/

/-- status field of ResearchSession: configuring | running | completed | failed. -/
inductive SessionStatus
  | configuring
  | running
  | completed
  | failed
deriving DecidableEq, Repr

/-- status field of ResearchStage: pending | running | completed | failed. -/
inductive StageStatus
  | pending
  | running
  | completed
  | failed
deriving DecidableEq, Repr

/-- complexity field of ResearchTopic: basic | intermediate | advanced. -/
inductive Complexity
  | basic
  | intermediate
  | advanced
deriving DecidableEq, Repr

structure ResearchTopic where
  title : String
  domain : String
  keywords : List String
  complexity : Complexity
deriving DecidableEq, Repr

structure ResearchConfig where
  topic : ResearchTopic
  authorName : String
  authorInstitution : String
deriving DecidableEq, Repr

structure ResearchMetrics where
  originalityScore : Int
  noveltyScore : Int
  plagiarismScore : Int
  ethicsScore : Int
  totalAgents : Int
  activeAgents : Int
  tasksCompleted : Int
  apiCalls : Int
deriving DecidableEq, Repr

structure ResearchStage where
  id : String
  name : String
  status : StageStatus
  progress : Int
  startTime : Option String := none
  endTime : Option String := none
deriving DecidableEq, Repr

/-- status field of AgentActivity: idle | working | completed. -/
inductive AgentStatus
  | idle
  | working
  | completed
deriving DecidableEq, Repr

structure AgentActivity where
  id : String
  name : String
  type : String
  status : AgentStatus
  currentTask : Option String := none
  tasksCompleted : Int
deriving DecidableEq, Repr

structure ResearchSession where
  id : String
  config : ResearchConfig
  status : SessionStatus
  stages : List ResearchStage
  metrics : ResearchMetrics
  agents : List AgentActivity
  createdAt : String
  updatedAt : String
deriving DecidableEq, Repr

/-! ## Store (src/frontend/src/store/useResearchStore.ts)

The zustand store state and its four actions.  `Date.now()` and
`new Date().toISOString()` are impure at the call site of createSession;
they are passed in as the parameters `now` and `nowIso`. -/

structure ResearchStore where
  currentSession : Option ResearchSession
  sessions : List ResearchSession
  isLoading : Bool
  error : Option String
deriving DecidableEq, Repr

def initialStore : ResearchStore :=
  { currentSession := none, sessions := [], isLoading := false, error := none }

/-- The six stages built by createSession, all pending at progress 0. -/
def initialStages : List ResearchStage :=
  [ { id := "stage-1", name := "Literature Review", status := .pending, progress := 0 },
    { id := "stage-2", name := "Hypothesis Generation", status := .pending, progress := 0 },
    { id := "stage-3", name := "Methodology Design", status := .pending, progress := 0 },
    { id := "stage-4", name := "Data Analysis", status := .pending, progress := 0 },
    { id := "stage-5", name := "Paper Composition", status := .pending, progress := 0 },
    { id := "stage-6", name := "Ethics Review", status := .pending, progress := 0 } ]

/-- The five agent activity records built by createSession. -/
def initialAgents : List AgentActivity :=
  [ { id := "agent-1", name := "Literature Agent", type := "research", status := .idle, tasksCompleted := 0 },
    { id := "agent-2", name := "Hypothesis Agent", type := "analysis", status := .idle, tasksCompleted := 0 },
    { id := "agent-3", name := "Methodology Agent", type := "design", status := .idle, tasksCompleted := 0 },
    { id := "agent-4", name := "Data Agent", type := "processing", status := .idle, tasksCompleted := 0 },
    { id := "agent-5", name := "Ethics Agent", type := "governance", status := .idle, tasksCompleted := 0 } ]

/-- The newSession object literal constructed inside createSession. -/
def mkNewSession (config : ResearchConfig) (now : Nat) (nowIso : String) : ResearchSession :=
  { id := "session-" ++ toString now
    config := config
    status := .configuring
    stages := initialStages
    metrics :=
      { originalityScore := 0
        noveltyScore := 0
        plagiarismScore := 0
        ethicsScore := 0
        totalAgents := 5
        activeAgents := 0
        tasksCompleted := 0
        apiCalls := 0 }
    agents := initialAgents
    createdAt := nowIso
    updatedAt := nowIso }

/-- createSession action: builds newSession and appends it, making it current. -/
def createSession (config : ResearchConfig) (now : Nat) (nowIso : String)
    (state : ResearchStore) : ResearchStore :=
  let newSession := mkNewSession config now nowIso
  { state with
    currentSession := some newSession
    sessions := state.sessions ++ [newSession] }

/-- updateSession action: sets currentSession and replaces every stored
session whose id equals the given session's id. -/
def updateSession (session : ResearchSession) (state : ResearchStore) : ResearchStore :=
  { state with
    currentSession := some session
    sessions := state.sessions.map (fun s => if s.id = session.id then session else s) }

/-- setLoading action. -/
def setLoading (loading : Bool) (state : ResearchStore) : ResearchStore :=
  { state with isLoading := loading }

/-- setError action. -/
def setError (e : Option String) (state : ResearchStore) : ResearchStore :=
  { state with error := e }

/-! ## Store operation sequences

One constructor per store action, so claims about "every reachable
sequence of session-store operations" quantify over lists of `StoreOp`. -/

inductive StoreOp
  | createSession (config : ResearchConfig) (now : Nat) (nowIso : String)
  | updateSession (session : ResearchSession)
  | setLoading (loading : Bool)
  | setError (e : Option String)
deriving DecidableEq, Repr

def applyOp (state : ResearchStore) : StoreOp → ResearchStore
  | .createSession config now nowIso => createSession config now nowIso state
  | .updateSession session => updateSession session state
  | .setLoading loading => setLoading loading state
  | .setError e => setError e state

def applyOps (state : ResearchStore) (ops : List StoreOp) : ResearchStore :=
  ops.foldl applyOp state

/-- The stored session with the given id, if any. -/
def findSession (state : ResearchStore) (sid : String) : Option ResearchSession :=
  state.sessions.find? (fun s => s.id == sid)

/-- The progress of stage stgid of stored session sid, if both exist. -/
def stageProgress (state : ResearchStore) (sid stgid : String) : Option Int :=
  (findSession state sid).bind fun s =>
    (s.stages.find? (fun st => st.id == stgid)).map (fun st => st.progress)

/-! ## Polling helpers (src/frontend/src/hooks/useSettings.ts,
useResearchSessions document) -/

/-- Default polling interval in milliseconds. -/
def POLLING_INTERVAL : Nat := 3000

/-- Terminal statuses that should stop polling. -/
def TERMINAL_STATUSES : List SessionStatus := [.completed, .failed]

/-- shouldPoll: polling continues while status is running;
an undefined status (none) yields false. -/
def shouldPoll (status : Option SessionStatus) : Bool :=
  match status with
  | none => false
  | some st => st == .running

/-- isTerminalStatus: membership in TERMINAL_STATUSES. -/
def isTerminalStatus (status : Option SessionStatus) : Bool :=
  match status with
  | none => false
  | some st => TERMINAL_STATUSES.contains st

/-- getRefetchInterval: the interval while polling, otherwise the
literal false, modelled as none. -/
def getRefetchInterval (status : Option SessionStatus) : Option Nat :=
  if shouldPoll status then some POLLING_INTERVAL else none

/-! ## filterSessionsByStatus (src/unnamed/part_004, useResults) -/

def filterSessionsByStatus (sessions : List ResearchSession)
    (status : SessionStatus) : List ResearchSession :=
  sessions.filter (fun session => session.status == status)

/-! ## String helpers shared by the error handler model

JavaScript String.prototype.includes and the regex /HTTP (\d{3})/ used by
parseApiError, written over character lists. -/

/-- pat occurs as a contiguous substring of s (String.prototype.includes). -/
def listContainsSub (pat : List Char) : List Char → Bool
  | [] => pat.isEmpty
  | c :: rest => pat.isPrefixOf (c :: rest) || listContainsSub pat rest

def strIncludes (s pat : String) : Bool :=
  listContainsSub pat.data s.data

/-- Matches the regex HTTP (backslash-d){3} at the head of the character
list, returning the 3-digit number. -/
def matchHttpAt : List Char → Option Nat
  | 'H' :: 'T' :: 'T' :: 'P' :: ' ' :: d1 :: d2 :: d3 :: _ =>
    if d1.isDigit && d2.isDigit && d3.isDigit then
      some ((d1.toNat - 48) * 100 + (d2.toNat - 48) * 10 + (d3.toNat - 48))
    else
      none
  | _ => none

/-- First match of the regex HTTP (backslash-d){3} anywhere in the list. -/
def findHttpStatusAux : List Char → Option Nat
  | [] => none
  | c :: rest =>
    match matchHttpAt (c :: rest) with
    | some n => some n
    | none => findHttpStatusAux rest

def findHttpStatus (s : String) : Option Nat :=
  findHttpStatusAux s.data

/-- JavaScript truthiness of an optional string: `m || d` falls back to d
when m is undefined (none) or the empty string. -/
def orDefault (m : Option String) (d : String) : String :=
  match m with
  | some s => if s = "" then d else s
  | none => d

/-! ## Error handler (implementation inlined in
src/frontend/src/lib/api.property.test.ts: parseApiError,
classifyByStatusCode, getDefaultClientErrorMessage, getErrorMessage) -/

/-- ErrorType union: network | client | server. -/
inductive ErrorType
  | network
  | client
  | server
deriving DecidableEq, Repr

/-- ApiError record.  The details field of the source carries the
original error value opaquely and is read by no modelled function; it is
omitted. -/
structure ApiError where
  type : ErrorType
  message : String
  statusCode : Option Int := none
  retryable : Bool
deriving DecidableEq, Repr

/-- The dynamically-typed error argument of parseApiError, one
constructor per branch of its instanceof / shape dispatch, in the order
the source checks them: TypeError, Response (status + statusText), an
object with a numeric status property (message optional), a plain Error
(message string), and any other value. -/
inductive JsError
  | typeError (message : String)
  | response (status : Int) (statusText : String)
  | objWithStatus (status : Int) (message : Option String)
  | error (message : String)
  | unknown
deriving DecidableEq, Repr

/-- Default user-friendly message for common client error status codes
(switch on statusCode). -/
def getDefaultClientErrorMessage (statusCode : Int) : String :=
  if statusCode = 400 then "Invalid request. Please check your input and try again."
  else if statusCode = 401 then "Authentication required. Please log in and try again."
  else if statusCode = 403 then "You do not have permission to perform this action."
  else if statusCode = 404 then "The requested resource was not found."
  else if statusCode = 409 then "A conflict occurred. The resource may have been modified."
  else if statusCode = 422 then "The provided data is invalid. Please check your input."
  else if statusCode = 429 then "Too many requests. Please wait a moment and try again."
  else "A request error occurred. Please check your input."

def networkConnectMessage : String :=
  "Unable to connect to server. Please check your internet connection."

def serverTryLaterMessage : String :=
  "A server error occurred. Please try again later."

def unexpectedErrorMessage : String :=
  "An unexpected error occurred"

/-- Classifies an error based on HTTP status code. -/
def classifyByStatusCode (statusCode : Int) (message : Option String) : ApiError :=
  if 400 ≤ statusCode ∧ statusCode < 500 then
    { type := .client
      message := orDefault message (getDefaultClientErrorMessage statusCode)
      statusCode := some statusCode
      retryable := false }
  else if 500 ≤ statusCode then
    { type := .server
      message := serverTryLaterMessage
      statusCode := some statusCode
      retryable := true }
  else
    { type := .server
      message := orDefault message unexpectedErrorMessage
      statusCode := some statusCode
      retryable := false }

/-- Parses an unknown error into a structured ApiError, following the
branch order of the source: TypeError, Response, object with status
property, Error (HTTP status in message, then network keywords, then
default server), unknown fallback. -/
def parseApiError : JsError → ApiError
  | .typeError _ =>
    { type := .network, message := networkConnectMessage, retryable := true }
  | .response status statusText =>
    classifyByStatusCode status (some statusText)
  | .objWithStatus status message =>
    classifyByStatusCode status message
  | .error message =>
    match findHttpStatus message with
    | some code => classifyByStatusCode (code : Int) (some message)
    | none =>
      if strIncludes message "fetch" || strIncludes message "network" ||
          strIncludes message "Failed to fetch" || strIncludes message "NetworkError" then
        { type := .network, message := networkConnectMessage, retryable := true }
      else
        { type := .server
          message := if message = "" then unexpectedErrorMessage else message
          retryable := true }
  | .unknown =>
    { type := .server, message := unexpectedErrorMessage, retryable := false }

/-- Returns a user-friendly error message based on the ApiError type. -/
def getErrorMessage (e : ApiError) : String :=
  match e.type with
  | .network => "Unable to connect to the server. Please check your internet connection and try again."
  | .client => e.message
  | .server => "A server error occurred. Our team has been notified. Please try again later."

/-! ## ApiClient.request (src/frontend/src/lib/api.ts)

The fetch response is abstracted to the fields the method reads: ok,
status, statusText, and the result of response.json().  The parsed JSON
body is abstracted to the one property the code inspects, an (optional)
message string; body = none models a body that is not valid JSON, in
which case response.json() rejects.  A thrown Error is modelled as
Except.error carrying the message. -/

structure ErrorBody where
  message : Option String
deriving DecidableEq, Repr

structure FetchResponse where
  ok : Bool
  status : Int
  statusText : String
  body : Option ErrorBody
deriving DecidableEq, Repr

/-- Message of the SyntaxError raised by response.json() on a response
whose body is not valid JSON. -/
def jsonSyntaxErrorMessage : String :=
  "Unexpected token in JSON"

/-- ApiClient.request: on a non-ok response, parse the body (falling back
to the object with message "An error occurred" when parsing rejects) and
throw an Error with the body message, or HTTP status: statusText when
that message is absent or empty; on an ok response return the parsed
body, response.json() itself raising on invalid JSON. -/
def request (r : FetchResponse) : Except String ErrorBody :=
  if r.ok then
    match r.body with
    | some v => .ok v
    | none => .error jsonSyntaxErrorMessage
  else
    let err : ErrorBody := r.body.getD { message := some "An error occurred" }
    .error (orDefault err.message ("HTTP " ++ toString r.status ++ ": " ++ r.statusText))

/-! ## Paper deduplication

Modelled from the spec: the backend ToolOrchestrator (deduplicate_papers)
is not present under the repository sources (backend/ holds only a
README; the design documents in src/unnamed declare its signature).  The
model follows the specification text, section 4.3: a two-pass merge,
pass (a) collapsing exact DOI matches, pass (b) merging remaining
records whose normalized titles have string similarity at or above 0.9;
each merge keeps the record with a citation count, else the first seen,
and the merged record occupies the first-seen position.  The similarity
metric itself is unspecified by the spec; the pipeline is parametric in
it, and diceSimilarity below is a concrete instance (bigram Dice
coefficient) used to evaluate it on concrete inputs. -/

/-- Paper record, spec section 3. -/
structure Paper where
  title : String
  authors : List String
  abstract : String
  publicationDate : String
  sourceUrl : String
  doi : Option String
  citationCount : Option Int
  source : String
deriving DecidableEq, Repr

/-- Modelled from the spec: merge of two duplicate records, preferring
the one with a citation count, else the first seen. -/
def mergePapers (p q : Paper) : Paper :=
  if p.citationCount.isSome then p
  else if q.citationCount.isSome then q
  else p

/-- Modelled from the spec: normalization of a title before similarity
comparison, lowercasing and keeping alphanumeric characters and
spaces. -/
def normalizeTitle (s : String) : String :=
  String.mk ((s.data.map Char.toLower).filter (fun c => c.isAlphanum || c == ' '))

/-- Both records carry the same DOI (exact DOI match, pass (a)). -/
def sameDoi (p q : Paper) : Bool :=
  match p.doi, q.doi with
  | some a, some b => a == b
  | _, _ => false

/-- The 0.9 similarity threshold of the spec, built with mkRat so that
comparisons against computed similarities reduce in the kernel;
simThreshold_eq_ratio below identifies it with 9 / 10. -/
def simThreshold : ℚ := mkRat 9 10

/-- Normalized titles of the two records are similar at or above the
0.9 threshold (pass (b)). -/
def similarTitle (sim : String → String → ℚ) (p q : Paper) : Bool :=
  decide (simThreshold ≤ sim (normalizeTitle p.title) (normalizeTitle q.title))

/-- Inserts a record into the kept list: merged into the first kept
duplicate (the merged record staying at the first-seen position), else
appended. -/
def insertPaper (dup : Paper → Paper → Bool) (kept : List Paper) (q : Paper) : List Paper :=
  match kept with
  | [] => [q]
  | p :: rest => if dup p q then mergePapers p q :: rest else p :: insertPaper dup rest q

/-- One deduplication pass over the stream, threading the kept list. -/
def dedupePass (dup : Paper → Paper → Bool) (kept : List Paper) : List Paper → List Paper
  | [] => kept
  | q :: rest => dedupePass dup (insertPaper dup kept q) rest

/-- Pass (a): collapse exact DOI matches. -/
def dedupeByDoi (papers : List Paper) : List Paper :=
  dedupePass sameDoi [] papers

/-- Pass (b): merge records with similar normalized titles. -/
def dedupeBySimilarity (sim : String → String → ℚ) (papers : List Paper) : List Paper :=
  dedupePass (similarTitle sim) [] papers

/-- Modelled from the spec: deduplicate_papers, the two passes in
order. -/
def deduplicatePapers (sim : String → String → ℚ) (papers : List Paper) : List Paper :=
  dedupeBySimilarity sim (dedupeByDoi papers)

/-- Character bigrams of a string. -/
def bigrams (s : String) : List (Char × Char) :=
  s.data.zip s.data.tail

/-- Size of the multiset intersection of two bigram lists. -/
def countCommon : List (Char × Char) → List (Char × Char) → Nat
  | [], _ => 0
  | x :: xs, ys => if ys.contains x then 1 + countCommon xs (ys.erase x) else countCommon xs ys

/-- Bigram Dice coefficient: a concrete normalized-title string
similarity in [0, 1]. -/
def diceSimilarity (a b : String) : ℚ :=
  let x := bigrams a
  let y := bigrams b
  if x.length + y.length = 0 then 1
  else mkRat (2 * countCommon x y) (x.length + y.length)

/-- Count of surviving records carrying the given DOI. -/
def doiCount (papers : List Paper) (d : String) : Nat :=
  (papers.filter (fun p => p.doi == some d)).length

/-! ## Caller discipline for store updates

The store itself validates nothing; these executable predicates describe
the discipline under which a sequence of store operations keeps stage
progress monotone: every updateSession must carry, for each stage of the
stored session it replaces, a stage with the same id and no smaller
progress. -/

/-- Every stage of old reappears in new (first stage of new with the
same id) with progress no smaller. -/
def stagesMonotoneB (old new : List ResearchStage) : Bool :=
  old.all fun os =>
    match new.find? (fun ns => ns.id == os.id) with
    | some ns => decide (os.progress ≤ ns.progress)
    | none => false

/-- The operation, applied to this state, does not lower any stage
progress of a stored session. -/
def monotoneOpB (state : ResearchStore) : StoreOp → Bool
  | .updateSession s =>
    state.sessions.all fun t => t.id != s.id || stagesMonotoneB t.stages s.stages
  | _ => true

/-- Every operation of the sequence is monotone for the state it is
applied to. -/
def monotoneSeqB : ResearchStore → List StoreOp → Bool
  | _, [] => true
  | st, op :: ops => monotoneOpB st op && monotoneSeqB (applyOp st op) ops

/-! ## Concrete inputs used to evaluate the definitions -/

def cfg0 : ResearchConfig :=
  { topic := { title := "X", domain := "Y", keywords := ["a"], complexity := .basic }
    authorName := "A"
    authorInstitution := "B" }

/-- The session createSession builds from cfg0 at time 0. -/
def session0 : ResearchSession := mkNewSession cfg0 0 "t0"

def session0Completed : ResearchSession := { session0 with status := .completed }

def session0Running : ResearchSession := { session0 with status := .running }

/-- session0 with the progress of stage-1 set to p. -/
def session0Prog (p : Int) : ResearchSession :=
  { session0 with
    stages := initialStages.map fun st =>
      if st.id == "stage-1" then { st with progress := p } else st }

def paperA : Paper :=
  { title := "deep learning for proteins a", authors := [], abstract := "", publicationDate := ""
    sourceUrl := "", doi := none, citationCount := some 10, source := "arxiv" }

def paperB : Paper :=
  { title := "deep learning for proteins b", authors := [], abstract := "", publicationDate := ""
    sourceUrl := "", doi := some "10.1000/xyz", citationCount := none, source := "semantic_scholar" }

def paperB2 : Paper :=
  { title := "deep learning for proteins b", authors := ["other"], abstract := "", publicationDate := ""
    sourceUrl := "", doi := some "10.1000/xyz", citationCount := none, source := "arxiv" }

def paperC : Paper :=
  { title := "deep learning for proteins c", authors := [], abstract := "", publicationDate := ""
    sourceUrl := "", doi := none, citationCount := none, source := "arxiv" }

def cexPapers : List Paper := [paperA, paperB, paperB2, paperC]

/-! ## Helper lemmas -/

theorem simThreshold_eq_ratio : simThreshold = 9 / 10 := by
  norm_num [simThreshold, Rat.mkRat_eq_div]

/-! ## Claim theorems -/

/-- Claim C1: for every session status value (including undefined), the
refetch-interval computation enables polling, with the positive interval
POLLING_INTERVAL, exactly when the status is running, and returns the
disabled value (false, modelled none) for completed, failed, configuring
and undefined statuses; shouldPoll agrees. -/
theorem polling_enabled_iff_running (status : Option SessionStatus) :
    (shouldPoll status = true ↔ status = some .running) ∧
    (getRefetchInterval status =
      if status = some .running then some POLLING_INTERVAL else none) ∧
    0 < POLLING_INTERVAL ∧
    getRefetchInterval (some .completed) = none ∧
    getRefetchInterval (some .failed) = none ∧
    getRefetchInterval (some .configuring) = none ∧
    getRefetchInterval none = none := by
  rcases status with _ | st
  · exact ⟨by decide, by decide, by decide, rfl, rfl, rfl, rfl⟩
  · cases st <;> exact ⟨by decide, by decide, by decide, rfl, rfl, rfl, rfl⟩

/-- Witness for C1 at the concrete status running. -/
theorem polling_enabled_iff_running_witness :
    shouldPoll (some SessionStatus.running) = true :=
  (polling_enabled_iff_running (some SessionStatus.running)).1.mpr rfl

/-- Claim C2: for every research configuration (and creation time),
createSession installs as current a session with status configuring,
exactly 6 stages all pending at progress 0, and the seven listed metric
fields all 0. -/
theorem createSession_initial_state (config : ResearchConfig) (now : Nat)
    (nowIso : String) (state : ResearchStore) :
    (createSession config now nowIso state).currentSession
      = some (mkNewSession config now nowIso) ∧
    mkNewSession config now nowIso ∈ (createSession config now nowIso state).sessions ∧
    (mkNewSession config now nowIso).status = .configuring ∧
    (mkNewSession config now nowIso).stages.length = 6 ∧
    (∀ st ∈ (mkNewSession config now nowIso).stages,
      st.status = .pending ∧ st.progress = 0) ∧
    (mkNewSession config now nowIso).metrics.originalityScore = 0 ∧
    (mkNewSession config now nowIso).metrics.noveltyScore = 0 ∧
    (mkNewSession config now nowIso).metrics.plagiarismScore = 0 ∧
    (mkNewSession config now nowIso).metrics.ethicsScore = 0 ∧
    (mkNewSession config now nowIso).metrics.tasksCompleted = 0 ∧
    (mkNewSession config now nowIso).metrics.apiCalls = 0 ∧
    (mkNewSession config now nowIso).metrics.activeAgents = 0 := by
  refine ⟨rfl, ?_, rfl, rfl, ?_, rfl, rfl, rfl, rfl, rfl, rfl, rfl⟩
  · simp [createSession]
  · show ∀ st ∈ initialStages, st.status = .pending ∧ st.progress = 0
    decide

/-- Witness for C2 at the concrete configuration cfg0. -/
theorem createSession_initial_state_witness :
    (createSession cfg0 0 "t0" initialStore).currentSession = some session0 :=
  (createSession_initial_state cfg0 0 "t0" initialStore).1

/-- Claim C8: filterSessionsByStatus returns exactly the input elements
whose status equals the given status, as a sublist of the input (hence
in original relative order, each element equal to an input element); the
occurrence count of every element is preserved when its status matches
and zero otherwise.  The embedding is a pure function, so the input list
is unmodified by construction. -/
theorem filterSessionsByStatus_spec (sessions : List ResearchSession)
    (status : SessionStatus) :
    List.Sublist (filterSessionsByStatus sessions status) sessions ∧
    (∀ x, x ∈ filterSessionsByStatus sessions status ↔
      x ∈ sessions ∧ x.status = status) ∧
    (∀ x, (filterSessionsByStatus sessions status).count x =
      if x.status = status then sessions.count x else 0) := by
  refine ⟨List.filter_sublist _, fun x => ?_, fun x => ?_⟩
  · simp [filterSessionsByStatus, List.mem_filter]
  · by_cases h : x.status = status
    · rw [if_pos h, filterSessionsByStatus, List.count_filter (by simp [h])]
    · rw [if_neg h, filterSessionsByStatus, List.count_eq_zero]
      intro hmem
      exact h (by simpa using (List.mem_filter.mp hmem).2)

/-- Witness for C8 on a concrete one-element list. -/
theorem filterSessionsByStatus_spec_witness :
    session0 ∈ filterSessionsByStatus [session0] SessionStatus.configuring :=
  ((filterSessionsByStatus_spec [session0] .configuring).2.1 session0).mpr
    ⟨List.mem_singleton_self session0, rfl⟩

/-- Claim C10: updateSession makes the given session current, keeps the
stored list length, and pointwise replaces exactly the stored sessions
whose id equals the given id, leaving every other position unchanged. -/
theorem updateSession_frame (state : ResearchStore) (s : ResearchSession) :
    (updateSession s state).currentSession = some s ∧
    (updateSession s state).sessions.length = state.sessions.length ∧
    List.Forall₂ (fun old new => (old.id = s.id → new = s) ∧ (old.id ≠ s.id → new = old))
      state.sessions (updateSession s state).sessions := by
  refine ⟨rfl, by simp [updateSession], ?_⟩
  rw [updateSession]
  simp only [List.forall₂_map_right_iff]
  rw [List.forall₂_same]
  intro a _
  constructor
  · intro h
    simp [h]
  · intro h
    simp [h]

/-- Witness for C10 on a concrete store and session. -/
theorem updateSession_frame_witness :
    (updateSession session0Running { initialStore with sessions := [session0] }).currentSession
      = some session0Running :=
  (updateSession_frame { initialStore with sessions := [session0] } session0Running).1

theorem find?_append_some {α : Type} (l1 l2 : List α) (p : α → Bool) (a : α)
    (h : l1.find? p = some a) : (l1 ++ l2).find? p = some a := by
  rw [List.find?_append, h]
  rfl

theorem find?_map_update (l : List ResearchSession) (s : ResearchSession)
    (sid : String) (t : ResearchSession)
    (h : l.find? (fun x => x.id == sid) = some t) :
    (l.map fun x => if x.id = s.id then s else x).find? (fun x => x.id == sid)
      = some (if t.id = s.id then s else t) := by
  induction l with
  | nil => simp at h
  | cons hd tl ih =>
    rw [List.find?_cons] at h
    rw [List.map_cons, List.find?_cons]
    cases hhd : (hd.id == sid) with
    | true =>
      rw [hhd] at h
      obtain rfl : hd = t := by simpa using h
      have hid : hd.id = sid := by simpa using hhd
      by_cases hs : hd.id = s.id
      · have hsid : (s.id == sid) = true := by
          rw [← hs]
          exact hhd
        simp only [if_pos hs, hsid]
      · simp only [if_neg hs, hhd]
    | false =>
      rw [hhd] at h
      replace h : tl.find? (fun x => x.id == sid) = some t := h
      by_cases hs : hd.id = s.id
      · have hsid : (s.id == sid) = false := by
          rw [← hs]
          exact hhd
        simp only [if_pos hs, hsid]
        exact ih h
      · simp only [if_neg hs, hhd]
        exact ih h

theorem stageProgress_mono_step (state : ResearchStore) (op : StoreOp)
    (sid stgid : String) (p : Int)
    (hmono : monotoneOpB state op = true)
    (hp : stageProgress state sid stgid = some p) :
    ∃ q, stageProgress (applyOp state op) sid stgid = some q ∧ p ≤ q := by
  cases op with
  | setLoading b => exact ⟨p, hp, le_refl p⟩
  | setError e => exact ⟨p, hp, le_refl p⟩
  | createSession config now nowIso =>
    refine ⟨p, ?_, le_refl p⟩
    unfold stageProgress findSession at hp ⊢
    simp only [applyOp, createSession]
    cases hfind : state.sessions.find? (fun x => x.id == sid) with
    | none => rw [hfind] at hp; simp at hp
    | some t =>
      rw [find?_append_some _ _ _ _ hfind]
      rw [hfind] at hp
      exact hp
  | updateSession s =>
    unfold stageProgress findSession at hp ⊢
    simp only [applyOp, updateSession] at hmono ⊢
    cases hfind : state.sessions.find? (fun x => x.id == sid) with
    | none => rw [hfind] at hp; simp at hp
    | some t =>
      rw [hfind, Option.some_bind] at hp
      rw [find?_map_update _ s _ _ hfind, Option.some_bind]
      by_cases hid : t.id = s.id
      · rw [if_pos hid]
        have ht : t ∈ state.sessions := List.mem_of_find?_eq_some hfind
        have hall := (List.all_eq_true.mp hmono) t ht
        have hsm : stagesMonotoneB t.stages s.stages = true := by
          simpa [hid] using hall
        cases hofind : t.stages.find? (fun st => st.id == stgid) with
        | none => rw [hofind] at hp; simp at hp
        | some os =>
          rw [hofind] at hp
          have hpp : os.progress = p := by simpa using hp
          have hos : os ∈ t.stages := List.mem_of_find?_eq_some hofind
          have h2 : (match s.stages.find? (fun ns => ns.id == os.id) with
              | some ns => decide (os.progress ≤ ns.progress)
              | none => false) = true :=
            (List.all_eq_true.mp hsm) os hos
          have hosid : os.id = stgid := by simpa using List.find?_some hofind
          cases hnfind : s.stages.find? (fun ns => ns.id == os.id) with
          | none => rw [hnfind] at h2; simp at h2
          | some ns =>
            rw [hnfind] at h2
            have hle : os.progress ≤ ns.progress := by simpa using h2
            rw [hosid] at hnfind
            refine ⟨ns.progress, ?_, ?_⟩
            · rw [hnfind]
              rfl
            · omega
      · rw [if_neg hid]
        exact ⟨p, hp, le_refl p⟩

theorem applyOps_cons (state : ResearchStore) (op : StoreOp) (rest : List StoreOp) :
    applyOps state (op :: rest) = applyOps (applyOp state op) rest := by
  simp [applyOps]

/-- Claim C3: as stated it quantifies over every reachable sequence of
store operations and asserts the status edge relation; the code enforces
nothing, see the counterexample.  Amended: the store itself leaves
status transitions unrestricted.  updateSession installs the supplied
session wholesale, so from any stored session every status, including a
change away from completed or failed, is reachable in one operation; the
only transition-related guarantee the store provides is that
createSession makes sessions whose status is configuring and leaves
already-stored sessions present. -/
theorem updateSession_unrestricted_transitions (state : ResearchStore)
    (s : ResearchSession) (σ : SessionStatus) (hs : s ∈ state.sessions) :
    { s with status := σ } ∈ (updateSession { s with status := σ } state).sessions ∧
    (updateSession { s with status := σ } state).currentSession
      = some { s with status := σ } ∧
    ∀ (config : ResearchConfig) (now : Nat) (nowIso : String),
      (mkNewSession config now nowIso).status = .configuring ∧
      s ∈ (createSession config now nowIso state).sessions := by
  refine ⟨?_, rfl, fun config now nowIso => ⟨rfl, ?_⟩⟩
  · rw [updateSession]
    exact List.mem_map.mpr ⟨s, hs, by simp⟩
  · simp [createSession, hs]

/-- Witness for the amended C3: a stored configuring session is moved to
failed (and could equally be moved anywhere) in one updateSession. -/
theorem updateSession_unrestricted_transitions_witness :
    { session0 with status := SessionStatus.failed } ∈
      (updateSession { session0 with status := SessionStatus.failed }
        { initialStore with sessions := [session0] }).sessions :=
  (updateSession_unrestricted_transitions
    { initialStore with sessions := [session0] } session0 .failed
    (List.mem_singleton_self session0)).1

/-- Counterexample to C3 as stated: a reachable operation sequence
(create, update to completed, update to running) in which the stored
session transitions completed to running, an edge outside the claimed
set, mutating a session after it reached a terminal status. -/
theorem status_transition_claim_cex :
    session0Completed.status = SessionStatus.completed ∧
    session0Running.status = SessionStatus.running ∧
    session0Running.id = session0Completed.id ∧
    findSession
      (applyOps initialStore
        [.createSession cfg0 0 "t0", .updateSession session0Completed])
      session0.id = some session0Completed ∧
    findSession
      (applyOps initialStore
        [.createSession cfg0 0 "t0", .updateSession session0Completed,
         .updateSession session0Running])
      session0.id = some session0Running := by
  decide

/-- Claim C4: as stated it asserts that no update ever replaces a stage
progress with a smaller value; the code enforces nothing, see the
counterexample.  Amended: the store does not enforce monotonicity — an
updateSession carrying a smaller progress value decreases it — and stage
progress is non-decreasing across exactly those operation sequences in
which every updateSession carries, for each stage of the stored session
it replaces, a stage with the same id and no smaller progress
(monotoneSeqB). -/
theorem stageProgress_mono_of_monotoneSeq (ops : List StoreOp)
    (state : ResearchStore) (sid stgid : String) (p q : Int)
    (hmono : monotoneSeqB state ops = true)
    (hp : stageProgress state sid stgid = some p)
    (hq : stageProgress (applyOps state ops) sid stgid = some q) :
    p ≤ q := by
  induction ops generalizing state p with
  | nil =>
    have heq : applyOps state [] = state := rfl
    rw [heq, hp] at hq
    have : p = q := by simpa using hq
    omega
  | cons op rest ih =>
    have hmono2 := hmono
    rw [monotoneSeqB, Bool.and_eq_true] at hmono2
    obtain ⟨r, hr, hpr⟩ := stageProgress_mono_step state op sid stgid p hmono2.1 hp
    rw [applyOps_cons] at hq
    exact le_trans hpr (ih (applyOp state op) r hmono2.2 hr hq)

/-- Witness for the amended C4: along a concrete monotone two-update
sequence the progress of stage-1 rises from 0 to 20, hence 0 is at most
20 by the theorem. -/
theorem stageProgress_mono_of_monotoneSeq_witness : (0 : Int) ≤ 20 :=
  stageProgress_mono_of_monotoneSeq
    [.updateSession (session0Prog 10), .updateSession (session0Prog 20)]
    (applyOp initialStore (.createSession cfg0 0 "t0"))
    session0.id "stage-1" 0 20 (by decide) (by decide) (by decide)

/-- Counterexample to C4 as stated: a reachable operation sequence in
which an update replaces the stored progress 50 of stage-1 with the
smaller value 10. -/
theorem stage_progress_claim_cex :
    stageProgress
      (applyOps initialStore
        [.createSession cfg0 0 "t0", .updateSession (session0Prog 50)])
      session0.id "stage-1" = some 50 ∧
    stageProgress
      (applyOps initialStore
        [.createSession cfg0 0 "t0", .updateSession (session0Prog 50),
         .updateSession (session0Prog 10)])
      session0.id "stage-1" = some 10 ∧
    (10 : Int) < 50 := by
  decide

theorem getErrorMessage_of_network (a : ApiError) (h : a.type = .network) :
    getErrorMessage a =
      "Unable to connect to the server. Please check your internet connection and try again." := by
  unfold getErrorMessage
  rw [h]

theorem getErrorMessage_of_server (a : ApiError) (h : a.type = .server) :
    getErrorMessage a =
      "A server error occurred. Our team has been notified. Please try again later." := by
  unfold getErrorMessage
  rw [h]

/-- Claim C5: as stated it requires 429 to be retryable; the classifier
marks every 4xx status, 429 included, as a client error with retryable
false, see the counterexample.  Amended: network errors are retryable;
authentication errors (401) are not retryable; rate-limit errors (429)
are classified as client errors and are also not retryable, like every
status in 400..499 (the separate recovery-action helper suggests a retry
for 429, but the retryable flag is false). -/
theorem error_classifier_retryable (msg : String) (m : Option String) (s : Int)
    (h4 : 400 ≤ s) (h5 : s < 500) :
    (parseApiError (.typeError msg)).retryable = true ∧
    (parseApiError (.typeError msg)).type = .network ∧
    (parseApiError (.objWithStatus 401 m)).retryable = false ∧
    (parseApiError (.objWithStatus 401 m)).type = .client ∧
    (parseApiError (.objWithStatus 429 m)).retryable = false ∧
    (parseApiError (.objWithStatus 429 m)).type = .client ∧
    (classifyByStatusCode s m).retryable = false ∧
    (classifyByStatusCode s m).type = .client := by
  have hcond : (400 : Int) ≤ s ∧ s < 500 := ⟨h4, h5⟩
  have h401 : (400 : Int) ≤ 401 ∧ (401 : Int) < 500 := by norm_num
  have h429 : (400 : Int) ≤ 429 ∧ (429 : Int) < 500 := by norm_num
  refine ⟨rfl, rfl, ?_, ?_, ?_, ?_, ?_, ?_⟩
  · show (classifyByStatusCode 401 m).retryable = false
    rw [classifyByStatusCode, if_pos h401]
  · show (classifyByStatusCode 401 m).type = .client
    rw [classifyByStatusCode, if_pos h401]
  · show (classifyByStatusCode 429 m).retryable = false
    rw [classifyByStatusCode, if_pos h429]
  · show (classifyByStatusCode 429 m).type = .client
    rw [classifyByStatusCode, if_pos h429]
  · rw [classifyByStatusCode, if_pos hcond]
  · rw [classifyByStatusCode, if_pos hcond]

/-- Witness for the amended C5 at concrete inputs. -/
theorem error_classifier_retryable_witness :
    (parseApiError (.objWithStatus 429 (some "Too Many Requests"))).retryable = false :=
  (error_classifier_retryable "x" (some "Too Many Requests") 404
    (by norm_num) (by norm_num)).2.2.2.2.1

/-- Counterexample to C5 as stated: an HTTP 429 rate-limit error is
marked retryable = false, not retryable = true. -/
theorem rate_limit_not_retryable_cex :
    (parseApiError (.objWithStatus 429 (some "Too Many Requests"))).retryable = false ∧
    (parseApiError (.objWithStatus 429 (some "Too Many Requests"))).type = .client := by
  decide

/-- Claim C6: as stated the rendered message never contains the raw
error text; for client-classified (4xx) errors the raw message string is
passed through verbatim, see the counterexample.  Amended: for errors
classified network or server the rendered message is one of two fixed
literal strings independent of the input error, so no raw exception text
or API key can appear there; for client-classified errors the raw
message of the error is returned verbatim whenever it is non-empty. -/
theorem error_message_classified (e : JsError) (s : Int) (m : String)
    (h4 : 400 ≤ s) (h5 : s < 500) (hm : m ≠ "") :
    ((parseApiError e).type = .network →
      getErrorMessage (parseApiError e) =
        "Unable to connect to the server. Please check your internet connection and try again.") ∧
    ((parseApiError e).type = .server →
      getErrorMessage (parseApiError e) =
        "A server error occurred. Our team has been notified. Please try again later.") ∧
    getErrorMessage (parseApiError (.objWithStatus s (some m))) = m := by
  refine ⟨getErrorMessage_of_network _, getErrorMessage_of_server _, ?_⟩
  have hcond : (400 : Int) ≤ s ∧ s < 500 := ⟨h4, h5⟩
  show getErrorMessage (classifyByStatusCode s (some m)) = m
  rw [classifyByStatusCode, if_pos hcond]
  show orDefault (some m) (getDefaultClientErrorMessage s) = m
  rw [orDefault, if_neg hm]

/-- Witness for the amended C6 at concrete inputs. -/
theorem error_message_classified_witness :
    getErrorMessage (parseApiError (.objWithStatus 404 (some "boom"))) = "boom" :=
  (error_message_classified .unknown 404 "boom"
    (by norm_num) (by norm_num) (by decide)).2.2

/-- Counterexample to C6 as stated: for a client error carrying raw
exception text with an API key, the rendered message is that raw text
verbatim, API key included. -/
theorem error_message_passthrough_cex :
    getErrorMessage
      (parseApiError (.objWithStatus 404 (some "ECONNREFUSED api key sk-live-secret")))
      = "ECONNREFUSED api key sk-live-secret" ∧
    strIncludes
      (getErrorMessage
        (parseApiError (.objWithStatus 404 (some "ECONNREFUSED api key sk-live-secret"))))
      "sk-live-secret" = true := by
  decide

/-- Claim C9: as stated it requires the thrown message on a non-ok
response to be the body message when present and HTTP status statusText
otherwise; the code additionally substitutes the catch fallback message
when the body is not valid JSON, and falls back to the HTTP form when
the message field is present but empty, see the counterexample.
Amended: request returns the parsed body iff the response is ok and the
body is valid JSON (an ok response with an unparseable body raises the
JSON parse error); on a non-ok response it throws with the body message
when the body parses and the message is a non-empty string, with the
literal An error occurred when the body is not valid JSON, and with
HTTP status: statusText when the parsed message is absent or empty. -/
theorem request_spec (r : FetchResponse) :
    (∀ v, request r = .ok v ↔ (r.ok = true ∧ r.body = some v)) ∧
    (r.ok = false → r.body = none → request r = .error "An error occurred") ∧
    (∀ b m, r.ok = false → r.body = some b → b.message = some m → m ≠ "" →
      request r = .error m) ∧
    (∀ b, r.ok = false → r.body = some b → (b.message = none ∨ b.message = some "") →
      request r = .error ("HTTP " ++ toString r.status ++ ": " ++ r.statusText)) ∧
    (r.ok = true → r.body = none → request r = .error jsonSyntaxErrorMessage) := by
  obtain ⟨ok, status, statusText, body⟩ := r
  cases ok with
  | true =>
    cases body with
    | none =>
      refine ⟨fun v => ?_, by simp, fun b m _ hb => by simp at hb,
        fun b _ hb => by simp at hb, fun _ _ => rfl⟩
      simp [request, jsonSyntaxErrorMessage]
    | some b =>
      refine ⟨fun v => ?_, by simp, fun b2 m h => by simp at h,
        fun b2 h => by simp at h, by simp⟩
      simp [request]
  | false =>
    cases body with
    | none =>
      refine ⟨fun v => by simp [request], fun _ _ => rfl,
        fun b m _ hb => by simp at hb, fun b _ hb => by simp at hb, by simp⟩
    | some b =>
      refine ⟨fun v => by simp [request], by simp,
        fun b2 m _ hb hmsg hne => ?_, fun b2 _ hb hmsg => ?_, by simp⟩
      · have hbb : b = b2 := by simpa using hb
        subst hbb
        show Except.error (orDefault b.message _) = _
        rw [hmsg, orDefault, if_neg hne]
      · have hbb : b = b2 := by simpa using hb
        subst hbb
        show Except.error (orDefault b.message _) = _
        rcases hmsg with hnone | hempty
        · rw [hnone, orDefault]
        · rw [hempty, orDefault, if_pos rfl]

/-- Witness for the amended C9 at a concrete non-ok response whose body
carries a non-empty message. -/
theorem request_spec_witness :
    request ⟨false, 400, "Bad Request", some ⟨some "boom"⟩⟩ = .error "boom" :=
  (request_spec ⟨false, 400, "Bad Request", some ⟨some "boom"⟩⟩).2.2.1
    ⟨some "boom"⟩ "boom" rfl rfl rfl (by decide)

/-- Counterexample to C9 as stated: a non-ok 500 response whose body is
not valid JSON throws An error occurred, not HTTP 500: Internal Server
Error. -/
theorem request_unparseable_body_cex :
    request ⟨false, 500, "Internal Server Error", none⟩ = .error "An error occurred" ∧
    "An error occurred" ≠ "HTTP 500: Internal Server Error" := by
  exact ⟨rfl, by decide⟩

theorem sameDoi_doi_eq (p q : Paper) (h : sameDoi p q = true) : p.doi = q.doi := by
  rcases hp : p.doi with _ | a
  · simp [sameDoi, hp] at h
  · rcases hq : q.doi with _ | b
    · simp [sameDoi, hp, hq] at h
    · have hab : a = b := by simpa [sameDoi, hp, hq] using h
      rw [hab]

theorem mergePapers_doi (p q : Paper) (h : sameDoi p q = true) :
    (mergePapers p q).doi = p.doi := by
  unfold mergePapers
  by_cases h1 : p.citationCount.isSome
  · rw [if_pos h1]
  · rw [if_neg h1]
    by_cases h2 : q.citationCount.isSome
    · rw [if_pos h2, ← sameDoi_doi_eq p q h]
    · rw [if_neg h2]

theorem doiCount_cons (p : Paper) (l : List Paper) (d : String) :
    doiCount (p :: l) d
      = (if (p.doi == some d) = true then 1 else 0) + doiCount l d := by
  by_cases h : (p.doi == some d) = true
  · simp [doiCount, List.filter_cons, h]
    omega
  · simp [doiCount, List.filter_cons, h]

theorem insert_doiCount_eq (kept : List Paper) (q : Paper) (d : String)
    (hq : q.doi = some d) (hinv : doiCount kept d ≤ 1) :
    doiCount (insertPaper sameDoi kept q) d = 1 := by
  induction kept with
  | nil => simp [insertPaper, doiCount, hq]
  | cons p rest ih =>
    rw [insertPaper]
    by_cases hdup : sameDoi p q = true
    · rw [if_pos hdup]
      have hpd : p.doi = some d := by rw [sameDoi_doi_eq p q hdup, hq]
      have hmd : (mergePapers p q).doi = some d := by rw [mergePapers_doi p q hdup, hpd]
      rw [doiCount_cons] at hinv ⊢
      rw [if_pos (by simp [hmd])]
      rw [if_pos (by simp [hpd])] at hinv
      omega
    · rw [if_neg hdup]
      have hpd : (p.doi == some d) = false := by
        rcases hp : p.doi with _ | a
        · rfl
        · by_cases had : a = d
          · exact absurd (by simp [sameDoi, hp, hq, had]) hdup
          · simpa using had
      rw [doiCount_cons] at hinv ⊢
      rw [if_neg (by simp [hpd])] at hinv ⊢
      rw [ih (by omega)]

theorem insert_doiCount_ne (kept : List Paper) (q : Paper) (d : String)
    (hq : q.doi ≠ some d) :
    doiCount (insertPaper sameDoi kept q) d = doiCount kept d := by
  have hqd : (q.doi == some d) = false := by
    rcases hp : q.doi with _ | a
    · rfl
    · rw [hp] at hq
      simpa using fun had => hq (by rw [had])
  induction kept with
  | nil => simp [insertPaper, doiCount, hqd]
  | cons p rest ih =>
    rw [insertPaper]
    by_cases hdup : sameDoi p q = true
    · rw [if_pos hdup]
      have hmd : (mergePapers p q).doi = p.doi := mergePapers_doi p q hdup
      rw [doiCount_cons, doiCount_cons, hmd]
    · rw [if_neg hdup]
      rw [doiCount_cons, doiCount_cons, ih]

theorem insert_doiInv (kept : List Paper) (q : Paper)
    (hinv : ∀ e, doiCount kept e ≤ 1) :
    ∀ e, doiCount (insertPaper sameDoi kept q) e ≤ 1 := by
  intro e
  by_cases hq : q.doi = some e
  · rw [insert_doiCount_eq kept q e hq (hinv e)]
  · rw [insert_doiCount_ne kept q e hq]
    exact hinv e

theorem dedupePass_doiCount (stream : List Paper) (kept : List Paper) (d : String)
    (hinv : ∀ e, doiCount kept e ≤ 1)
    (h : doiCount kept d = 1 ∨ ∃ r ∈ stream, r.doi = some d) :
    doiCount (dedupePass sameDoi kept stream) d = 1 := by
  induction stream generalizing kept with
  | nil =>
    rcases h with h1 | ⟨r, hr, _⟩
    · exact h1
    · simp at hr
  | cons q rest ih =>
    rw [dedupePass]
    refine ih (insertPaper sameDoi kept q) (insert_doiInv kept q hinv) ?_
    by_cases hq : q.doi = some d
    · exact Or.inl (insert_doiCount_eq kept q d hq (hinv d))
    · rcases h with h1 | ⟨r, hr, hrd⟩
      · exact Or.inl (by rw [insert_doiCount_ne kept q d hq]; exact h1)
      · rcases List.mem_cons.mp hr with rfl | hr2
        · exact absurd hrd hq
        · exact Or.inr ⟨r, hr2, hrd⟩

theorem dedupePass_doiInv (stream : List Paper) (kept : List Paper)
    (hinv : ∀ e, doiCount kept e ≤ 1) :
    ∀ e, doiCount (dedupePass sameDoi kept stream) e ≤ 1 := by
  induction stream generalizing kept with
  | nil => exact hinv
  | cons q rest ih =>
    rw [dedupePass]
    exact ih (insertPaper sameDoi kept q) (insert_doiInv kept q hinv)

theorem mergePapers_eq_left (p q : Paper) (hp : p.citationCount = none)
    (hq : q.citationCount = none) : mergePapers p q = p := by
  simp [mergePapers, hp, hq]

theorem insertPaper_none_cases (dup : Paper → Paper → Bool) (kept : List Paper)
    (q : Paper) (hk : ∀ r ∈ kept, r.citationCount = none)
    (hq : q.citationCount = none) :
    insertPaper dup kept q = kept ∨ insertPaper dup kept q = kept ++ [q] := by
  induction kept with
  | nil => exact Or.inr rfl
  | cons p rest ih =>
    rw [insertPaper]
    by_cases hdup : dup p q = true
    · rw [if_pos hdup, mergePapers_eq_left p q (hk p (List.mem_cons_self p rest)) hq]
      exact Or.inl rfl
    · rw [if_neg hdup]
      rcases ih (fun r hr => hk r (List.mem_cons_of_mem p hr)) with h | h
      · rw [h]
        exact Or.inl rfl
      · rw [h]
        exact Or.inr rfl

theorem dedupePass_sublist (dup : Paper → Paper → Bool) (stream : List Paper)
    (kept : List Paper) (hk : ∀ r ∈ kept, r.citationCount = none)
    (hs : ∀ r ∈ stream, r.citationCount = none) :
    List.Sublist (dedupePass dup kept stream) (kept ++ stream) := by
  induction stream generalizing kept with
  | nil =>
    rw [dedupePass]
    simp
  | cons q rest ih =>
    rw [dedupePass]
    have hq : q.citationCount = none := hs q (List.mem_cons_self q rest)
    have hcases := insertPaper_none_cases dup kept q hk hq
    have hk2 : ∀ r ∈ insertPaper dup kept q, r.citationCount = none := by
      rcases hcases with h | h <;> rw [h] <;> intro r hr
      · exact hk r hr
      · rcases List.mem_append.mp hr with h1 | h1
        · exact hk r h1
        · rw [List.mem_singleton.mp h1]
          exact hq
    have step := ih (insertPaper dup kept q) hk2
      (fun r hr => hs r (List.mem_cons_of_mem q hr))
    refine step.trans ?_
    rcases hcases with h | h
    · rw [h]
      exact List.Sublist.append_left (List.sublist_cons_self q rest) kept
    · rw [h, List.append_assoc]
      exact List.Sublist.refl _

theorem deduplicatePapers_sublist (sim : String → String → ℚ) (papers : List Paper)
    (h : ∀ p ∈ papers, p.citationCount = none) :
    List.Sublist (deduplicatePapers sim papers) papers := by
  have h1 : List.Sublist (dedupeByDoi papers) papers := by
    simpa using dedupePass_sublist sameDoi papers [] (by simp) h
  have h2 : ∀ p ∈ dedupeByDoi papers, p.citationCount = none :=
    fun p hp => h p (h1.subset hp)
  have h3 : List.Sublist (dedupeBySimilarity sim (dedupeByDoi papers)) (dedupeByDoi papers) := by
    simpa using dedupePass_sublist (similarTitle sim) (dedupeByDoi papers) [] (by simp) h2
  exact h3.trans h1

/-- Claim C7 (spec-modelled): as stated it requires exactly one
surviving entry per duplicated DOI and exactly one survivor of every
similar-title pair; both fail in the full two-pass pipeline, because the
title pass can merge a DOI-carrying record into a similar record without
that DOI, and both members of a similar pair can be merged into an
earlier survivor, see the counterexample.  Amended: after the DOI pass a
list containing entries with an identical DOI has exactly one surviving
entry with that DOI, and no DOI is duplicated among its survivors; a
two-entry list whose normalized titles are similar at or above the 0.9
threshold (simThreshold, equal to 9 / 10) collapses to exactly one
entry; and when no record carries a citation count (so merges keep the
first-seen record) the full pipeline's survivors are a subsequence of
the input, keeping first-seen order. -/
theorem deduplicatePapers_amended (sim : String → String → ℚ)
    (papers : List Paper) (p q : Paper) (d : String)
    (hd : ∃ r ∈ papers, r.doi = some d)
    (hsim : simThreshold ≤ sim (normalizeTitle p.title) (normalizeTitle q.title)) :
    doiCount (dedupeByDoi papers) d = 1 ∧
    (∀ e, doiCount (dedupeByDoi papers) e ≤ 1) ∧
    (deduplicatePapers sim [p, q]).length = 1 ∧
    ((∀ r ∈ papers, r.citationCount = none) →
      List.Sublist (deduplicatePapers sim papers) papers) ∧
    simThreshold = 9 / 10 := by
  refine ⟨?_, ?_, ?_, deduplicatePapers_sublist sim papers, simThreshold_eq_ratio⟩
  · exact dedupePass_doiCount papers [] d (by simp [doiCount]) (Or.inr hd)
  · exact dedupePass_doiInv papers [] (by simp [doiCount])
  · have hst : similarTitle sim p q = true := by
      rw [similarTitle]
      exact decide_eq_true hsim
    by_cases hdoi : sameDoi p q = true
    · simp [deduplicatePapers, dedupeByDoi, dedupeBySimilarity, dedupePass, insertPaper, hdoi]
    · simp [deduplicatePapers, dedupeByDoi, dedupeBySimilarity, dedupePass, insertPaper, hdoi, hst]

/-- Witness for the amended C7 at concrete inputs: two same-DOI papers
collapse in the DOI pass. -/
theorem deduplicatePapers_amended_witness :
    doiCount (dedupeByDoi [paperB, paperB2]) "10.1000/xyz" = 1 :=
  (deduplicatePapers_amended diceSimilarity [paperB, paperB2] paperB paperC "10.1000/xyz"
    (by decide) (by decide)).1

/-- Counterexample to C7 as stated, on the concrete input cexPapers with
the bigram Dice similarity: paperB and paperB2 share a DOI, yet the full
pipeline ends with zero surviving entries carrying that DOI (the merged
record is absorbed into the similar paperA, which has a citation count);
and paperB, paperC have similarity 26/27, at or above the threshold, yet
neither survives, rather than exactly one. -/
theorem deduplicatePapers_claim_cex :
    paperB.doi = some "10.1000/xyz" ∧
    paperB2.doi = some "10.1000/xyz" ∧
    doiCount (deduplicatePapers diceSimilarity cexPapers) "10.1000/xyz" = 0 ∧
    simThreshold ≤ diceSimilarity (normalizeTitle paperB.title) (normalizeTitle paperC.title) ∧
    paperB ∉ deduplicatePapers diceSimilarity cexPapers ∧
    paperC ∉ deduplicatePapers diceSimilarity cexPapers ∧
    deduplicatePapers diceSimilarity cexPapers = [paperA] := by
  decide

end Agents

